import Mathlib

/-!
Verification of the PDFomator layout-and-placement geometry engine.

The definitions below are a shallow embedding of the geometry core of the
application (grid partitioning, image placement under the fill modes,
interactive cover-mode transforms, grid/cell state transitions and the PDF
export loop), translated from the JavaScript sources.  Physical quantities
in millimetres are modelled as rational numbers; the DOM-side fallible
operations (image decoding, document generation) are modelled as explicit
oracles passed to the export function.
-/

namespace PDFomator

/-- Per-cell interactive transform record, as stored in
`layoutState.cells[i].transform` (main.js, addToSpecificCell). -/
structure Transform where
  scale : ℚ
  translateX : ℚ
  translateY : ℚ
deriving DecidableEq, Repr

/-- The identity transform `{ scale: 1, translateX: 0, translateY: 0 }`
used as the default and reset value (main.js). -/
def identityTransform : Transform := { scale := 1, translateX := 0, translateY := 0 }

/-- Fill modes cycled by `cycleFillMode` in main.js: contain, cover, fill. -/
inductive FillMode
  | contain
  | cover
  | fill
deriving DecidableEq, Repr

/-- Stored image reference: `{ src, width, height }` with the natural pixel
dimensions of the decoded content (main.js, addToSpecificCell). -/
structure ImageRef where
  src : String
  width : ℚ
  height : ℚ
deriving DecidableEq, Repr

/-- One populated-cell record as written by `addToSpecificCell` in main.js. -/
structure CellData where
  image : ImageRef
  title : String
  fillMode : FillMode
  transform : Transform
deriving DecidableEq, Repr

/-- Paper sizes from `CONFIG.paperSizes` in main.js. -/
inductive PaperSize
  | A4
  | A3
deriving DecidableEq, Repr

/-- `CONFIG.paperSizes`: A4 is 210 x 297 mm, A3 is 297 x 420 mm. -/
def paperSizeDims : PaperSize → ℚ × ℚ
  | PaperSize.A4 => (210, 297)
  | PaperSize.A3 => (297, 420)

/-- Sheet orientation; landscape swaps width and height (updateSheetSize). -/
inductive Orientation
  | portrait
  | landscape
deriving DecidableEq, Repr

/-- Dimension computation of `updateSheetSize` in main.js: portrait keeps the
table entry, landscape transposes it. -/
def updateSheetSize (paperSize : PaperSize) (orientation : Orientation) : ℚ × ℚ :=
  match orientation with
  | Orientation.portrait => paperSizeDims paperSize
  | Orientation.landscape => ((paperSizeDims paperSize).2, (paperSizeDims paperSize).1)

/-- Sheet padding record (renderSVGSheet, `gridSpacing.sheetPadding`). -/
structure SheetPadding where
  top : ℚ
  right : ℚ
  bottom : ℚ
  left : ℚ
deriving DecidableEq, Repr

/-- Spacing configuration (renderSVGSheet, local `gridSpacing`). -/
structure GridSpacing where
  sheetPadding : SheetPadding
  columnGap : ℚ
  rowGap : ℚ
  cellPadding : ℚ
deriving DecidableEq, Repr

/-- The fixed spacing constants hard-coded in `renderSVGSheet` (main.js):
10 mm sheet padding on each side, 5 mm column and row gaps, 2 mm cell
padding. -/
def gridSpacing : GridSpacing :=
  { sheetPadding := { top := 10, right := 10, bottom := 10, left := 10 }
    columnGap := 5
    rowGap := 5
    cellPadding := 2 }

/-- `availableWidth = width - sheetPadding.left - sheetPadding.right`
(renderSVGSheet). -/
def availableWidth (spacing : GridSpacing) (sheetWidth : ℚ) : ℚ :=
  sheetWidth - spacing.sheetPadding.left - spacing.sheetPadding.right

/-- `availableHeight = height - sheetPadding.top - sheetPadding.bottom`
(renderSVGSheet). -/
def availableHeight (spacing : GridSpacing) (sheetHeight : ℚ) : ℚ :=
  sheetHeight - spacing.sheetPadding.top - spacing.sheetPadding.bottom

/-- `cellWidth = (availableWidth - columnGap*(cols-1)) / cols`
(renderSVGSheet and exportToPDF). -/
def cellWidth (spacing : GridSpacing) (sheetWidth : ℚ) (cols : ℕ) : ℚ :=
  (availableWidth spacing sheetWidth - spacing.columnGap * ((cols : ℚ) - 1)) / (cols : ℚ)

/-- `cellHeight = (availableHeight - rowGap*(rows-1)) / rows`
(renderSVGSheet and exportToPDF). -/
def cellHeight (spacing : GridSpacing) (sheetHeight : ℚ) (rows : ℕ) : ℚ :=
  (availableHeight spacing sheetHeight - spacing.rowGap * ((rows : ℚ) - 1)) / (rows : ℚ)

/-- `cellX = sheetPadding.left + col * (cellWidth + columnGap)` with
`col = i % cols` (renderSVGSheet). -/
def cellXPos (spacing : GridSpacing) (sheetWidth : ℚ) (cols i : ℕ) : ℚ :=
  spacing.sheetPadding.left + ((i % cols : ℕ) : ℚ) * (cellWidth spacing sheetWidth cols + spacing.columnGap)

/-- `cellY = sheetPadding.top + row * (cellHeight + rowGap)` with
`row = floor(i / cols)` (renderSVGSheet). -/
def cellYPos (spacing : GridSpacing) (sheetHeight : ℚ) (rows cols i : ℕ) : ℚ :=
  spacing.sheetPadding.top + ((i / cols : ℕ) : ℚ) * (cellHeight spacing sheetHeight rows + spacing.rowGap)

/-- A plain rectangle in mm, used for cell rectangles and placements. -/
structure Rect where
  x : ℚ
  y : ℚ
  width : ℚ
  height : ℚ
deriving DecidableEq, Repr

/-- The rectangle of cell `i` as computed inside the render loop of
`renderSVGSheet` (main.js): position from row/col index, uniform width and
height. -/
def cellRect (spacing : GridSpacing) (sheetWidth sheetHeight : ℚ) (rows cols i : ℕ) : Rect :=
  { x := cellXPos spacing sheetWidth cols i
    y := cellYPos spacing sheetHeight rows cols i
    width := cellWidth spacing sheetWidth cols
    height := cellHeight spacing sheetHeight rows }

/-- The geometric output of `renderSVGSheet` (main.js): one cell rectangle per
linear index `i < rows*cols`, computed with the fixed `gridSpacing`.  The
function performs no validity check on the computed cell dimensions. -/
def renderSVGSheet (sheetWidth sheetHeight : ℚ) (rows cols : ℕ) : List Rect :=
  (List.range (rows * cols)).map (cellRect gridSpacing sheetWidth sheetHeight rows cols)

/-- Cover-mode placement of `renderSVGCell` (main.js): base size from the
aspect-ratio comparison, then the interactive transform is applied, centred
on the content area `(imgX, imgY, imgWidth, imgHeight)`. -/
def coverPlacement (imageWidth imageHeight imgX imgY imgWidth imgHeight : ℚ)
    (transform : Transform) : Rect :=
  let imageAspect := imageWidth / imageHeight
  let cellAspect := imgWidth / imgHeight
  let baseWidth := if imageAspect > cellAspect then imgHeight * imageAspect else imgWidth
  let baseHeight := if imageAspect > cellAspect then imgHeight else imgWidth / imageAspect
  let finalWidth := baseWidth * transform.scale
  let finalHeight := baseHeight * transform.scale
  let centerX := imgX + imgWidth / 2
  let centerY := imgY + imgHeight / 2
  { x := centerX - finalWidth / 2 + transform.translateX
    y := centerY - finalHeight / 2 + transform.translateY
    width := finalWidth
    height := finalHeight }

/-- Object-fit modes handled by `calculateImagePlacement` in the export
module. -/
inductive ObjectFit
  | fill
  | cover
  | noneMode
  | scaleDown
  | contain
deriving DecidableEq, Repr

/-- `pdfDpiToMm = 25.4 / 72` (calculateImagePlacement). -/
def pdfDpiToMm : ℚ := 25.4 / 72

/-- `browserDpiToMm = 25.4 / 96` (calculateImagePlacement). -/
def browserDpiToMm : ℚ := 25.4 / 96

/-- `calculateImagePlacement` from the export module: given the natural image
dimensions, the content-area dimensions and the object-fit mode, produce the
draw rectangle relative to the content-area origin. -/
def calculateImagePlacement (imgW imgH cellW cellH : ℚ) (objectFit : ObjectFit) : Rect :=
  let imgAspect := imgW / imgH
  let cellAspect := cellW / cellH
  match objectFit with
  | ObjectFit.fill =>
      { x := 0, y := 0, width := cellW, height := cellH }
  | ObjectFit.cover =>
      if imgAspect > cellAspect then
        let height := cellH
        let width := height * imgAspect
        { x := (cellW - width) / 2, y := 0, width := width, height := height }
      else
        let width := cellW
        let height := width / imgAspect
        { x := 0, y := (cellH - height) / 2, width := width, height := height }
  | ObjectFit.noneMode =>
      let width := imgW * pdfDpiToMm
      let height := imgH * pdfDpiToMm
      { x := (cellW - width) / 2, y := (cellH - height) / 2, width := width, height := height }
  | ObjectFit.scaleDown =>
      let width0 := if imgAspect > cellAspect then cellW else cellH * imgAspect
      let height0 := if imgAspect > cellAspect then cellW / imgAspect else cellH
      let originalWidthMm := imgW * pdfDpiToMm
      let originalHeightMm := imgH * pdfDpiToMm
      let width := if width0 > originalWidthMm then originalWidthMm
        else if height0 > originalHeightMm then originalWidthMm else width0
      let height := if width0 > originalWidthMm then originalHeightMm
        else if height0 > originalHeightMm then originalHeightMm else height0
      { x := (cellW - width) / 2, y := (cellH - height) / 2, width := width, height := height }
  | ObjectFit.contain =>
      if imgAspect > cellAspect then
        let width := cellW
        let height := width / imgAspect
        { x := 0, y := (cellH - height) / 2, width := width, height := height }
      else
        let height := cellH
        let width := height * imgAspect
        { x := (cellW - width) / 2, y := 0, width := width, height := height }

/-- Whether the export draw for a mode is wrapped in a clip region:
`exportToPDF` clips exactly for the cover and none modes. -/
def needsClip (objectFit : ObjectFit) : Bool :=
  match objectFit with
  | ObjectFit.cover => true
  | ObjectFit.noneMode => true
  | _ => false

/-- `Math.max(0.5, Math.min(3, x))`: the scale clamp shared by `handleWheel`
and `updateTransform` (main.js, setupImageInteraction). -/
def clampScale (x : ℚ) : ℚ := max 0.5 (min 3 x)

/-- `handleWheel` (main.js): per-tick factor 1.1 on scroll up, 0.9 on scroll
down, applied to the current scale and clamped; translation untouched. -/
def handleWheel (transform : Transform) (deltaY : ℚ) : Transform :=
  let scaleChange : ℚ := if deltaY < 0 then 1.1 else 0.9
  { transform with scale := clampScale (transform.scale * scaleChange) }

/-- `updateTransform` (main.js): pointer deltas are converted from screen
pixels to sheet mm through the displayed SVG size, added to the session start
translation; the scale is the session start scale times the gesture factor,
clamped. -/
def updateTransform (startTransform : Transform)
    (deltaX deltaY scaleChange rectWidth rectHeight sheetWidth sheetHeight : ℚ) : Transform :=
  let svgDeltaX := deltaX / rectWidth * sheetWidth
  let svgDeltaY := deltaY / rectHeight * sheetHeight
  { scale := clampScale (startTransform.scale * scaleChange)
    translateX := startTransform.translateX + svgDeltaX
    translateY := startTransform.translateY + svgDeltaY }

/-- Grid shape: `layoutState.grid`. -/
structure GridSpec where
  cols : ℕ
  rows : ℕ
deriving DecidableEq, Repr

/-- Sheet part of the application state: `layoutState.sheet`. -/
structure SheetSpec where
  paperSize : PaperSize
  orientation : Orientation
  width : ℚ
  height : ℚ
deriving DecidableEq, Repr

/-- The mutable application state `layoutState` (main.js).  The cells array is
a JavaScript array that may be shorter than `rows*cols` and may contain holes
or nulls, modelled as a list of options. -/
structure LayoutState where
  sheet : SheetSpec
  grid : GridSpec
  cells : List (Option CellData)
deriving DecidableEq, Repr

/-- The initial `layoutState` literal of main.js: A4 portrait, a 1-column
2-row grid, and an empty cells array. -/
def initState : LayoutState :=
  { sheet := { paperSize := PaperSize.A4, orientation := Orientation.portrait
               width := 210, height := 297 }
    grid := { cols := 1, rows := 2 }
    cells := [] }

/-- JavaScript sparse-array assignment `cells[i] = v`: when `i` is beyond the
current length the array grows to length `i+1`, padding with holes
(undefined, modelled as `none`). -/
def setCellAt (cells : List (Option CellData)) (i : ℕ) (v : Option CellData) :
    List (Option CellData) :=
  (cells ++ List.replicate (i + 1 - cells.length) Option.none).set i v

/-- JavaScript read `cells[i]`: out-of-range reads and holes yield undefined,
nulls yield null; both are falsy and modelled as `none`. -/
def getCellAt (cells : List (Option CellData)) (i : ℕ) : Option CellData :=
  cells.getD i Option.none

/-- `addToSpecificCell` (main.js): store a fresh record for the decoded
content at the given index with fill mode contain and the identity
transform. -/
def addToSpecificCell (s : LayoutState) (content : ImageRef) (title : String)
    (cellIndex : ℕ) : LayoutState :=
  { s with cells := setCellAt s.cells cellIndex (Option.some
      { image := content
        title := title
        fillMode := FillMode.contain
        transform := identityTransform }) }

/-- `removeCellContent` (main.js): `layoutState.cells[cellIndex] = null`. -/
def removeCellContent (s : LayoutState) (cellIndex : ℕ) : LayoutState :=
  { s with cells := setCellAt s.cells cellIndex Option.none }

/-- Successor in the `['contain', 'cover', 'fill']` cycle of `cycleFillMode`
(main.js). -/
def nextFillMode : FillMode → FillMode
  | FillMode.contain => FillMode.cover
  | FillMode.cover => FillMode.fill
  | FillMode.fill => FillMode.contain

/-- `cycleFillMode` (main.js): a falsy entry (hole or null) returns without
touching the state; otherwise the fill mode advances in the cycle and the
transform is reset to the identity. -/
def cycleFillMode (s : LayoutState) (cellIndex : ℕ) : LayoutState :=
  match getCellAt s.cells cellIndex with
  | Option.none => s
  | Option.some cellData =>
      { s with cells := setCellAt s.cells cellIndex (Option.some
          { cellData with
            fillMode := nextFillMode cellData.fillMode
            transform := identityTransform }) }

/-- Writing a new transform to an existing cell record, the state effect
shared by `updateTransform`, `handleWheel` and the reset button handler in
main.js (each of which assigns `cellData.transform`). -/
def setCellTransform (s : LayoutState) (cellIndex : ℕ) (t : Transform) : LayoutState :=
  match getCellAt s.cells cellIndex with
  | Option.none => s
  | Option.some cellData =>
      { s with cells := setCellAt s.cells cellIndex (Option.some
          { cellData with transform := t }) }

/-- `cellsToRemove.some(cell => cell !== null && cell !== undefined)` from
`selectGrid` (main.js). -/
def hasDataInRemovedCells (cells : List (Option CellData)) (newTotalCells : ℕ) : Bool :=
  (cells.drop newTotalCells).any (fun cell => cell.isSome)

/-- `selectGrid` (main.js): when shrinking would discard populated cells the
user is asked to confirm; on decline nothing changes.  Otherwise the grid is
set and the cells array is truncated to the new total when it is longer. -/
def selectGrid (s : LayoutState) (cols rows : ℕ) (userConfirmed : Bool) : LayoutState :=
  let currentTotalCells := s.grid.rows * s.grid.cols
  let newTotalCells := rows * cols
  if newTotalCells < currentTotalCells ∧
      hasDataInRemovedCells s.cells newTotalCells = true ∧ userConfirmed = false then
    s
  else
    let totalCells := rows * cols
    let cells := if totalCells < s.cells.length then s.cells.take totalCells else s.cells
    { s with grid := { cols := cols, rows := rows }, cells := cells }

/-- Paper-size selection (setupSizeOptions + updateSheetSize in main.js):
stores the choice and recomputes the physical dimensions. -/
def selectSize (s : LayoutState) (paperSize : PaperSize) (orientation : Orientation) :
    LayoutState :=
  let dims := updateSheetSize paperSize orientation
  { s with sheet := { paperSize := paperSize, orientation := orientation
                      width := dims.1, height := dims.2 } }

/-- States reachable from the initial `layoutState` through the user-facing
operations.  The index bounds on the cell operations come from the UI: cell
click handlers and per-cell buttons exist only for indices below
`rows*cols` (renderSVGSheet loop), and the grid picker offers only the 5x5
matrix (`CONFIG.maxGridSize`). -/
inductive Reachable : LayoutState → Prop
  | init : Reachable initState
  | selectGrid {s : LayoutState} (cols rows : ℕ) (userConfirmed : Bool) :
      1 ≤ cols → cols ≤ 5 → 1 ≤ rows → rows ≤ 5 →
      Reachable s → Reachable (selectGrid s cols rows userConfirmed)
  | addToSpecificCell {s : LayoutState} (content : ImageRef) (title : String) (cellIndex : ℕ) :
      cellIndex < s.grid.rows * s.grid.cols →
      Reachable s → Reachable (addToSpecificCell s content title cellIndex)
  | removeCellContent {s : LayoutState} (cellIndex : ℕ) :
      cellIndex < s.grid.rows * s.grid.cols →
      Reachable s → Reachable (removeCellContent s cellIndex)
  | cycleFillMode {s : LayoutState} (cellIndex : ℕ) :
      Reachable s → Reachable (cycleFillMode s cellIndex)
  | setCellTransform {s : LayoutState} (cellIndex : ℕ) (t : Transform) :
      Reachable s → Reachable (setCellTransform s cellIndex t)
  | selectSize {s : LayoutState} (paperSize : PaperSize) (orientation : Orientation) :
      Reachable s → Reachable (selectSize s paperSize orientation)

/-- One populated-cell record of the export module state: the content handle
is opaque (its decoding is the fallible step), the object-fit mode drives
placement and clipping. -/
structure ExportCell where
  objectFit : ObjectFit
deriving DecidableEq, Repr

/-- One absolute draw instruction handed to the jsPDF collaborator by
`exportToPDF`: `pdf.addImage(dataUrl, ..., contentX + placement.x,
contentY + placement.y, placement.width, placement.height)`, optionally
inside a clip region. -/
structure DrawCall where
  cellIndex : ℕ
  x : ℚ
  y : ℚ
  width : ℚ
  height : ℚ
  clipped : Bool
deriving DecidableEq, Repr

/-- Failures of the document-generation collaborator itself: the jsPDF
library is missing (construction fails) or saving the document fails.  Both
propagate out of `exportToPDF`. -/
inductive ExportError
  | libNotLoaded
  | saveFailed
deriving DecidableEq, Repr

/-- Environment of one export run.  `resolveImage` models the per-cell
fallible pipeline (`blobToDataURL` + `getImageDimensions`): it either yields
the natural image dimensions or fails for that cell.  The two boolean flags
model the collaborator: jsPDF availability at construction and success of
`pdf.save`. -/
structure ExportEnv where
  jspdfAvailable : Bool
  resolveImage : ℕ → ExportCell → Option (ℚ × ℚ)
  saveOk : Bool

/-- The draw instruction `exportToPDF` computes for populated cell `i` once
its image resolved to natural dimensions `dims`: the cell rectangle is
recomputed from the spacing, inset by the cell padding, and the placement of
`calculateImagePlacement` is offset to absolute coordinates. -/
def exportCellDraw (spacing : GridSpacing) (sheetWidth sheetHeight : ℚ) (rows cols : ℕ)
    (i : ℕ) (cellData : ExportCell) (dims : ℚ × ℚ) : DrawCall :=
  let cw := cellWidth spacing sheetWidth cols
  let ch := cellHeight spacing sheetHeight rows
  let contentWidth := cw - spacing.cellPadding * 2
  let contentHeight := ch - spacing.cellPadding * 2
  let contentX := cellXPos spacing sheetWidth cols i + spacing.cellPadding
  let contentY := cellYPos spacing sheetHeight rows cols i + spacing.cellPadding
  let placement := calculateImagePlacement dims.1 dims.2 contentWidth contentHeight cellData.objectFit
  { cellIndex := i
    x := contentX + placement.x
    y := contentY + placement.y
    width := placement.width
    height := placement.height
    clipped := needsClip cellData.objectFit }

/-- The per-cell loop of `exportToPDF`: `for (i = 0; i < cells.length; i++)`,
skipping empty cells, and skipping (per-cell try/catch) any populated cell
whose image fails to resolve; every other cell contributes its draw call. -/
def exportDraws (env : ExportEnv) (spacing : GridSpacing) (sheetWidth sheetHeight : ℚ)
    (rows cols : ℕ) (cells : List (Option ExportCell)) : List DrawCall :=
  (List.range cells.length).filterMap (fun i =>
    match cells.getD i Option.none with
    | Option.none => Option.none
    | Option.some cellData =>
        match env.resolveImage i cellData with
        | Option.none => Option.none
        | Option.some dims =>
            Option.some (exportCellDraw spacing sheetWidth sheetHeight rows cols i cellData dims))

/-- `exportToPDF` (export module): construction of the jsPDF document fails
when the library is missing; otherwise every cell is attempted and the
document is saved, whose failure also propagates.  The successful result is
the list of draw instructions handed to the collaborator. -/
def exportToPDF (env : ExportEnv) (spacing : GridSpacing) (sheetWidth sheetHeight : ℚ)
    (rows cols : ℕ) (cells : List (Option ExportCell)) :
    Except ExportError (List DrawCall) :=
  if env.jspdfAvailable = false then
    Except.error ExportError.libNotLoaded
  else
    let draws := exportDraws env spacing sheetWidth sheetHeight rows cols cells
    if env.saveOk = false then Except.error ExportError.saveFailed
    else Except.ok draws

/-! ## Helper lemmas -/

theorem setCellAt_length (cells : List (Option CellData)) (i : ℕ) (v : Option CellData) :
    (setCellAt cells i v).length = max cells.length (i + 1) := by
  simp only [setCellAt, List.length_set, List.length_append, List.length_replicate]
  omega

theorem getCellAt_setCellAt_self (cells : List (Option CellData)) (i : ℕ) (v : Option CellData) :
    getCellAt (setCellAt cells i v) i = v := by
  have hlen : i < (cells ++ List.replicate (i + 1 - cells.length) Option.none).length := by
    simp only [List.length_append, List.length_replicate]
    omega
  simp [getCellAt, setCellAt, List.getD_eq_getElem?_getD, List.getElem?_set_self hlen]

theorem getCellAt_isSome_lt (cells : List (Option CellData)) (i : ℕ) (d : CellData)
    (h : getCellAt cells i = Option.some d) : i < cells.length := by
  by_contra hge
  push_neg at hge
  simp [getCellAt, List.getD_eq_getElem?_getD, List.getElem?_eq_none hge] at h

theorem cellWidth_pos (sheetWidth : ℚ) (cols : ℕ) (hw : 210 ≤ sheetWidth)
    (h1 : 1 ≤ cols) (h5 : cols ≤ 5) : 0 < cellWidth gridSpacing sheetWidth cols := by
  have hc1 : (1 : ℚ) ≤ (cols : ℚ) := by exact_mod_cast h1
  have hc5 : ((cols : ℚ)) ≤ 5 := by exact_mod_cast h5
  have hnum : (0 : ℚ) <
      availableWidth gridSpacing sheetWidth - gridSpacing.columnGap * ((cols : ℚ) - 1) := by
    simp only [availableWidth, gridSpacing]
    linarith
  have := div_pos hnum (by linarith : (0 : ℚ) < (cols : ℚ))
  simpa [cellWidth] using this

theorem cellHeight_pos (sheetHeight : ℚ) (rows : ℕ) (hh : 210 ≤ sheetHeight)
    (h1 : 1 ≤ rows) (h5 : rows ≤ 5) : 0 < cellHeight gridSpacing sheetHeight rows := by
  have hr1 : (1 : ℚ) ≤ (rows : ℚ) := by exact_mod_cast h1
  have hr5 : ((rows : ℚ)) ≤ 5 := by exact_mod_cast h5
  have hnum : (0 : ℚ) <
      availableHeight gridSpacing sheetHeight - gridSpacing.rowGap * ((rows : ℚ) - 1) := by
    simp only [availableHeight, gridSpacing]
    linarith
  have := div_pos hnum (by linarith : (0 : ℚ) < (rows : ℚ))
  simpa [cellHeight] using this

/-! ## Claim theorems -/

/-- Claim C1: for every rows, cols in [1,5] and the fixed spacing constants,
the grid partition of `renderSVGSheet` exactly tiles the sheet
(`cols*cellWidth + columnGap*(cols-1) + padding.left + padding.right =
sheet.width`, and the analogous identity for height; exact over the
rationals, hence within any floating-point epsilon), and cell `i` with
`row = floor(i/cols)`, `col = i mod cols` is placed at
`x = padding.left + col*(cellWidth+columnGap)`,
`y = padding.top + row*(cellHeight+rowGap)` with uniform width and height. -/
theorem renderSVGSheet_tiles (sheetWidth sheetHeight : ℚ) (rows cols : ℕ)
    (hr1 : 1 ≤ rows) (hr5 : rows ≤ 5) (hc1 : 1 ≤ cols) (hc5 : cols ≤ 5) :
    ((cols : ℚ) * cellWidth gridSpacing sheetWidth cols
        + gridSpacing.columnGap * ((cols : ℚ) - 1)
        + gridSpacing.sheetPadding.left + gridSpacing.sheetPadding.right = sheetWidth)
    ∧ ((rows : ℚ) * cellHeight gridSpacing sheetHeight rows
        + gridSpacing.rowGap * ((rows : ℚ) - 1)
        + gridSpacing.sheetPadding.top + gridSpacing.sheetPadding.bottom = sheetHeight)
    ∧ ∀ i, i < rows * cols →
        (renderSVGSheet sheetWidth sheetHeight rows cols).getD i ⟨0, 0, 0, 0⟩ =
          { x := gridSpacing.sheetPadding.left
              + ((i % cols : ℕ) : ℚ) * (cellWidth gridSpacing sheetWidth cols + gridSpacing.columnGap)
            y := gridSpacing.sheetPadding.top
              + ((i / cols : ℕ) : ℚ) * (cellHeight gridSpacing sheetHeight rows + gridSpacing.rowGap)
            width := cellWidth gridSpacing sheetWidth cols
            height := cellHeight gridSpacing sheetHeight rows } := by
  have hcq : ((cols : ℚ)) ≠ 0 := Nat.cast_ne_zero.mpr (by omega)
  have hrq : ((rows : ℚ)) ≠ 0 := Nat.cast_ne_zero.mpr (by omega)
  refine ⟨?_, ?_, ?_⟩
  · field_simp [cellWidth, availableWidth, gridSpacing]
  · field_simp [cellHeight, availableHeight, gridSpacing]
  · intro i hi
    have hrange : (List.range (rows * cols))[i]? = Option.some i := List.getElem?_range hi
    simp [renderSVGSheet, List.getD_eq_getElem?_getD, List.getElem?_map, hrange,
      cellRect, cellXPos, cellYPos]

/-- Witness for C1 at A4 portrait with a 2 x 2 grid. -/
theorem renderSVGSheet_tiles_witness :
    (((2 : ℕ) : ℚ) * cellWidth gridSpacing 210 2 + gridSpacing.columnGap * (((2 : ℕ) : ℚ) - 1)
        + gridSpacing.sheetPadding.left + gridSpacing.sheetPadding.right = 210)
    ∧ (renderSVGSheet 210 297 2 2).getD 3 ⟨0, 0, 0, 0⟩ =
        { x := gridSpacing.sheetPadding.left
            + ((3 % 2 : ℕ) : ℚ) * (cellWidth gridSpacing 210 2 + gridSpacing.columnGap)
          y := gridSpacing.sheetPadding.top
            + ((3 / 2 : ℕ) : ℚ) * (cellHeight gridSpacing 297 2 + gridSpacing.rowGap)
          width := cellWidth gridSpacing 210 2
          height := cellHeight gridSpacing 297 2 } :=
  ⟨(renderSVGSheet_tiles 210 297 2 2 (by norm_num) (by norm_num) (by norm_num) (by norm_num)).1,
   (renderSVGSheet_tiles 210 297 2 2 (by norm_num) (by norm_num) (by norm_num)
      (by norm_num)).2.2 3 (by norm_num)⟩

/-- Claim C4, counterexample: `renderSVGSheet` contains no validity check and
signals no error.  On a 10 mm wide sheet with a 5 x 5 grid the computed
`cellWidth` is -6 mm, yet the full 25-cell layout is silently produced. -/
theorem renderSVGSheet_silent_on_nonpositive_cells :
    cellWidth gridSpacing 10 5 ≤ 0 ∧ (renderSVGSheet 10 297 5 5).length = 5 * 5 := by
  constructor
  · norm_num [cellWidth, availableWidth, gridSpacing]
  · simp [renderSVGSheet]

/-- Claim C4, amended: the layout operation performs no fit check and never
signals `InvalidLayout`; instead, for every configuration reachable in the
application (A4 or A3 paper in either orientation, rows and cols in [1,5],
the fixed spacing constants) the computed cell dimensions are strictly
positive, so the failing condition can never arise, and the layout always
consists of rows*cols cells. -/
theorem renderSVGSheet_reachable_cells_positive (paperSize : PaperSize)
    (orientation : Orientation) (rows cols : ℕ)
    (hr1 : 1 ≤ rows) (hr5 : rows ≤ 5) (hc1 : 1 ≤ cols) (hc5 : cols ≤ 5) :
    0 < cellWidth gridSpacing (updateSheetSize paperSize orientation).1 cols
    ∧ 0 < cellHeight gridSpacing (updateSheetSize paperSize orientation).2 rows
    ∧ (renderSVGSheet (updateSheetSize paperSize orientation).1
        (updateSheetSize paperSize orientation).2 rows cols).length = rows * cols := by
  have hw : (210 : ℚ) ≤ (updateSheetSize paperSize orientation).1 := by
    cases paperSize <;> cases orientation <;> norm_num [updateSheetSize, paperSizeDims]
  have hh : (210 : ℚ) ≤ (updateSheetSize paperSize orientation).2 := by
    cases paperSize <;> cases orientation <;> norm_num [updateSheetSize, paperSizeDims]
  exact ⟨cellWidth_pos _ _ hw hc1 hc5, cellHeight_pos _ _ hh hr1 hr5, by simp [renderSVGSheet]⟩

/-- Witness for the amended C4 at A4 portrait with a 2 x 2 grid. -/
theorem renderSVGSheet_reachable_cells_positive_witness :
    0 < cellWidth gridSpacing (updateSheetSize PaperSize.A4 Orientation.portrait).1 2
    ∧ 0 < cellHeight gridSpacing (updateSheetSize PaperSize.A4 Orientation.portrait).2 2
    ∧ (renderSVGSheet (updateSheetSize PaperSize.A4 Orientation.portrait).1
        (updateSheetSize PaperSize.A4 Orientation.portrait).2 2 2).length = 2 * 2 :=
  renderSVGSheet_reachable_cells_positive PaperSize.A4 Orientation.portrait 2 2
    (by norm_num) (by norm_num) (by norm_num) (by norm_num)

/-- Claim C2, counterexample: for content whose aspect ratio equals the
target aspect ratio (2000 x 1000 px in a 100 x 50 mm area) the base cover
placement equals the target on BOTH axes, refuting the clause that equality
holds on at most one axis. -/
theorem coverPlacement_base_both_axes :
    (coverPlacement 2000 1000 0 0 100 50 identityTransform).width = 100
    ∧ (coverPlacement 2000 1000 0 0 100 50 identityTransform).height = 50 := by
  norm_num [coverPlacement, identityTransform]

/-- Claim C2, amended: the base cover placement (identity transform) has
width at least the target width and height at least the target height, with
equality on at least one axis (on both exactly when the aspect ratios
coincide), it is centred on the content area, and the cover draw is
clipped. -/
theorem coverPlacement_base_covers (imageWidth imageHeight imgX imgY imgWidth imgHeight : ℚ)
    (hiw : 0 < imageWidth) (hih : 0 < imageHeight) (hw : 0 < imgWidth) (hh : 0 < imgHeight) :
    imgWidth ≤ (coverPlacement imageWidth imageHeight imgX imgY imgWidth imgHeight identityTransform).width
    ∧ imgHeight ≤ (coverPlacement imageWidth imageHeight imgX imgY imgWidth imgHeight identityTransform).height
    ∧ ((coverPlacement imageWidth imageHeight imgX imgY imgWidth imgHeight identityTransform).width = imgWidth
       ∨ (coverPlacement imageWidth imageHeight imgX imgY imgWidth imgHeight identityTransform).height = imgHeight)
    ∧ (coverPlacement imageWidth imageHeight imgX imgY imgWidth imgHeight identityTransform).x
        + (coverPlacement imageWidth imageHeight imgX imgY imgWidth imgHeight identityTransform).width / 2
        = imgX + imgWidth / 2
    ∧ (coverPlacement imageWidth imageHeight imgX imgY imgWidth imgHeight identityTransform).y
        + (coverPlacement imageWidth imageHeight imgX imgY imgWidth imgHeight identityTransform).height / 2
        = imgY + imgHeight / 2
    ∧ needsClip ObjectFit.cover = true := by
  have hA : 0 < imageWidth / imageHeight := div_pos hiw hih
  have hC : 0 < imgWidth / imgHeight := div_pos hw hh
  have hCe : imgHeight * (imgWidth / imgHeight) = imgWidth := by field_simp
  simp only [coverPlacement, identityTransform, mul_one]
  by_cases hcmp : imageWidth / imageHeight > imgWidth / imgHeight
  · simp only [if_pos hcmp]
    have hwid : imgWidth ≤ imgHeight * (imageWidth / imageHeight) := by
      have := mul_lt_mul_of_pos_left hcmp hh
      linarith [hCe]
    exact ⟨hwid, le_refl _, Or.inr trivial, by ring, by ring, rfl⟩
  · simp only [if_neg hcmp]
    push_neg at hcmp
    have hhei : imgHeight ≤ imgWidth / (imageWidth / imageHeight) := by
      have h1 : imgWidth / (imgWidth / imgHeight) ≤ imgWidth / (imageWidth / imageHeight) := by
        gcongr
      have h2 : imgWidth / (imgWidth / imgHeight) = imgHeight := by
        rw [div_div_eq_mul_div, mul_comm, mul_div_assoc, div_self (ne_of_gt hw), mul_one]
      linarith
    exact ⟨le_refl _, hhei, Or.inl trivial, by ring, by ring, rfl⟩

/-- Witness for the amended C2: 1000 x 2000 px content (taller than the
area) in a 100 x 50 mm content area at origin (0, 0). -/
theorem coverPlacement_base_covers_witness :
    (100 : ℚ) ≤ (coverPlacement 1000 2000 0 0 100 50 identityTransform).width
    ∧ (50 : ℚ) ≤ (coverPlacement 1000 2000 0 0 100 50 identityTransform).height
    ∧ ((coverPlacement 1000 2000 0 0 100 50 identityTransform).width = 100
       ∨ (coverPlacement 1000 2000 0 0 100 50 identityTransform).height = 50)
    ∧ (coverPlacement 1000 2000 0 0 100 50 identityTransform).x
        + (coverPlacement 1000 2000 0 0 100 50 identityTransform).width / 2 = 0 + 100 / 2
    ∧ (coverPlacement 1000 2000 0 0 100 50 identityTransform).y
        + (coverPlacement 1000 2000 0 0 100 50 identityTransform).height / 2 = 0 + 50 / 2
    ∧ needsClip ObjectFit.cover = true :=
  coverPlacement_base_covers 1000 2000 0 0 100 50
    (by norm_num) (by norm_num) (by norm_num) (by norm_num)

/-- Claim C3: the interactive cover placement is the base cover placement
scaled by `transform.scale` and recentred with the unbounded translation:
`finalW = baseW*scale`, `finalH = baseH*scale`,
`finalX = centerX - finalW/2 + translateX`,
`finalY = centerY - finalH/2 + translateY`; in particular for every bound
there is a translation that pushes the placement arbitrarily far right of
the clipped content area, without any error. -/
theorem coverPlacement_interactive (imageWidth imageHeight imgX imgY imgWidth imgHeight : ℚ)
    (transform : Transform) :
    (coverPlacement imageWidth imageHeight imgX imgY imgWidth imgHeight transform).width
        = (coverPlacement imageWidth imageHeight imgX imgY imgWidth imgHeight identityTransform).width
          * transform.scale
    ∧ (coverPlacement imageWidth imageHeight imgX imgY imgWidth imgHeight transform).height
        = (coverPlacement imageWidth imageHeight imgX imgY imgWidth imgHeight identityTransform).height
          * transform.scale
    ∧ (coverPlacement imageWidth imageHeight imgX imgY imgWidth imgHeight transform).x
        = (imgX + imgWidth / 2)
          - (coverPlacement imageWidth imageHeight imgX imgY imgWidth imgHeight transform).width / 2
          + transform.translateX
    ∧ (coverPlacement imageWidth imageHeight imgX imgY imgWidth imgHeight transform).y
        = (imgY + imgHeight / 2)
          - (coverPlacement imageWidth imageHeight imgX imgY imgWidth imgHeight transform).height / 2
          + transform.translateY
    ∧ ∀ bound : ℚ, ∃ t : Transform,
        bound ≤ (coverPlacement imageWidth imageHeight imgX imgY imgWidth imgHeight t).x := by
  refine ⟨?_, ?_, ?_, ?_, ?_⟩
  · simp only [coverPlacement, identityTransform]
    ring
  · simp only [coverPlacement, identityTransform]
    ring
  · simp only [coverPlacement]
  · simp only [coverPlacement]
  · intro bound
    refine ⟨{ scale := 1
              translateX := bound - (imgX + imgWidth / 2)
                + (if imageWidth / imageHeight > imgWidth / imgHeight then
                     imgHeight * (imageWidth / imageHeight) else imgWidth) / 2
              translateY := 0 }, ?_⟩
    simp only [coverPlacement]
    by_cases hcmp : imageWidth / imageHeight > imgWidth / imgHeight
    · simp only [if_pos hcmp]
      exact le_of_eq (by ring)
    · simp only [if_neg hcmp]
      exact le_of_eq (by ring)

/-- Claim C5, counterexample: for content whose aspect ratio equals the
content-area aspect ratio (2000 x 1000 px in a 100 x 50 mm area) the contain
placement equals the target bound on BOTH axes, refuting the clause that
exactly one axis equals the bound. -/
theorem calculateImagePlacement_contain_both_axes :
    ¬ (((calculateImagePlacement 2000 1000 100 50 ObjectFit.contain).width = 100
        ∧ (calculateImagePlacement 2000 1000 100 50 ObjectFit.contain).height ≠ 50)
      ∨ ((calculateImagePlacement 2000 1000 100 50 ObjectFit.contain).width ≠ 100
        ∧ (calculateImagePlacement 2000 1000 100 50 ObjectFit.contain).height = 50)) := by
  norm_num [calculateImagePlacement]

/-- Claim C5, amended: the contain placement never exceeds the target
rectangle in either axis and at least one axis exactly equals the target
bound (both exactly when the aspect ratios coincide); and Scenario B holds:
1000 x 1000 px content in a 100 x 50 mm content area yields the placement
rectangle (25, 0, 50, 50). -/
theorem calculateImagePlacement_contain_fits :
    (∀ imgW imgH cellW cellH : ℚ, 0 < imgW → 0 < imgH → 0 < cellW → 0 < cellH →
      (calculateImagePlacement imgW imgH cellW cellH ObjectFit.contain).width ≤ cellW
      ∧ (calculateImagePlacement imgW imgH cellW cellH ObjectFit.contain).height ≤ cellH
      ∧ ((calculateImagePlacement imgW imgH cellW cellH ObjectFit.contain).width = cellW
         ∨ (calculateImagePlacement imgW imgH cellW cellH ObjectFit.contain).height = cellH))
    ∧ calculateImagePlacement 1000 1000 100 50 ObjectFit.contain = ⟨25, 0, 50, 50⟩ := by
  constructor
  · intro imgW imgH cellW cellH hiw hih hcw hch
    have hA : 0 < imgW / imgH := div_pos hiw hih
    have hC : 0 < cellW / cellH := div_pos hcw hch
    have hCe : cellH * (cellW / cellH) = cellW := by field_simp
    simp only [calculateImagePlacement]
    by_cases hcmp : imgW / imgH > cellW / cellH
    · simp only [if_pos hcmp]
      have hhei : cellW / (imgW / imgH) ≤ cellH := by
        have h1 : cellW / (imgW / imgH) ≤ cellW / (cellW / cellH) := by
          gcongr
        have h2 : cellW / (cellW / cellH) = cellH := by
          rw [div_div_eq_mul_div, mul_comm, mul_div_assoc, div_self (ne_of_gt hcw), mul_one]
        linarith
      exact ⟨le_refl _, hhei, Or.inl trivial⟩
    · simp only [if_neg hcmp]
      push_neg at hcmp
      have hwid : cellH * (imgW / imgH) ≤ cellW := by
        have := mul_le_mul_of_nonneg_left hcmp (le_of_lt hch)
        linarith [hCe]
      exact ⟨hwid, le_refl _, Or.inr trivial⟩
  · norm_num [calculateImagePlacement]

/-- Witness for the amended C5: 300 x 100 px content (wider than the area)
in a 100 x 50 mm content area. -/
theorem calculateImagePlacement_contain_fits_witness :
    (calculateImagePlacement 300 100 100 50 ObjectFit.contain).width ≤ 100
    ∧ (calculateImagePlacement 300 100 100 50 ObjectFit.contain).height ≤ 50
    ∧ ((calculateImagePlacement 300 100 100 50 ObjectFit.contain).width = 100
       ∨ (calculateImagePlacement 300 100 100 50 ObjectFit.contain).height = 50) :=
  calculateImagePlacement_contain_fits.1 300 100 100 50
    (by norm_num) (by norm_num) (by norm_num) (by norm_num)

/-- Claim C6: after any gesture update the scale lies in the clamp interval
[0.5, 3] (`minScale`/`maxScale` of the code), both for the pan/pinch path
(`updateTransform`) and the wheel path (`handleWheel`); wheel zoom
multiplies the current scale by the fixed per-tick factor (1.1 zooming in,
0.9 zooming out) and leaves both translation components untouched. -/
theorem gesture_scale_clamped (startTransform t : Transform)
    (deltaX deltaY scaleChange rectWidth rectHeight sheetWidth sheetHeight wheelDeltaY : ℚ) :
    ((0.5 : ℚ) ≤ (updateTransform startTransform deltaX deltaY scaleChange
        rectWidth rectHeight sheetWidth sheetHeight).scale
      ∧ (updateTransform startTransform deltaX deltaY scaleChange
        rectWidth rectHeight sheetWidth sheetHeight).scale ≤ 3)
    ∧ ((0.5 : ℚ) ≤ (handleWheel t wheelDeltaY).scale ∧ (handleWheel t wheelDeltaY).scale ≤ 3)
    ∧ (handleWheel t wheelDeltaY).scale
        = clampScale (t.scale * (if wheelDeltaY < 0 then 1.1 else 0.9))
    ∧ (handleWheel t wheelDeltaY).translateX = t.translateX
    ∧ (handleWheel t wheelDeltaY).translateY = t.translateY := by
  have hb : ∀ x : ℚ, (0.5 : ℚ) ≤ clampScale x ∧ clampScale x ≤ 3 := fun x =>
    ⟨le_max_left _ _, max_le (by norm_num) (min_le_left _ _)⟩
  exact ⟨hb _, hb _, rfl, rfl, rfl⟩

theorem cycleFillMode_cells_length (s : LayoutState) (i : ℕ) :
    (cycleFillMode s i).cells.length = s.cells.length ∧ (cycleFillMode s i).grid = s.grid := by
  unfold cycleFillMode
  cases hcell : getCellAt s.cells i with
  | none => exact ⟨rfl, rfl⟩
  | some d =>
      have hlt := getCellAt_isSome_lt s.cells i d hcell
      refine ⟨?_, rfl⟩
      simp only [setCellAt_length]
      omega

theorem setCellTransform_cells_length (s : LayoutState) (i : ℕ) (t : Transform) :
    (setCellTransform s i t).cells.length = s.cells.length
    ∧ (setCellTransform s i t).grid = s.grid := by
  unfold setCellTransform
  cases hcell : getCellAt s.cells i with
  | none => exact ⟨rfl, rfl⟩
  | some d =>
      have hlt := getCellAt_isSome_lt s.cells i d hcell
      refine ⟨?_, rfl⟩
      simp only [setCellAt_length]
      omega

theorem selectGrid_length_le (s : LayoutState) (cols rows : ℕ) (conf : Bool)
    (h : s.cells.length ≤ s.grid.rows * s.grid.cols) :
    (selectGrid s cols rows conf).cells.length
      ≤ (selectGrid s cols rows conf).grid.rows * (selectGrid s cols rows conf).grid.cols := by
  by_cases hguard : rows * cols < s.grid.rows * s.grid.cols ∧
      hasDataInRemovedCells s.cells (rows * cols) = true ∧ conf = false
  · simp only [selectGrid]
    rw [if_pos hguard]
    exact h
  · simp only [selectGrid]
    rw [if_neg hguard]
    simp only
    split
    · next hlen =>
        simp only [List.length_take]
        omega
    · next hlen => omega

/-- Claim C7, counterexample: the initial `layoutState` is reachable (it is
the literal the program starts from) and already violates the invariant:
its cells array is empty while the grid is 1 x 2, so the length is 0 and
rows*cols is 2. -/
theorem initState_cells_length_mismatch :
    Reachable initState
    ∧ initState.cells.length ≠ initState.grid.rows * initState.grid.cols :=
  ⟨Reachable.init, by decide⟩

/-- Claim C7, amended: in every reachable state the cells collection has
length at most rows*cols (the array starts empty and is extended sparsely
only up to the indices of existing cells, so equality does not hold in
general); reshaping the grid through a confirmed `selectGrid` installs the
new grid shape and truncates the collection to the new rows*cols bound,
discarding every entry at or beyond it, and never extends the collection. -/
theorem cells_length_le_grid :
    (∀ s : LayoutState, Reachable s → s.cells.length ≤ s.grid.rows * s.grid.cols)
    ∧ (∀ (s : LayoutState) (cols rows : ℕ),
        (selectGrid s cols rows true).grid = { cols := cols, rows := rows }
        ∧ (selectGrid s cols rows true).cells
            = s.cells.take (min (rows * cols) s.cells.length)) := by
  constructor
  · intro s h
    induction h with
    | init => decide
    | selectGrid cols rows conf hc1 hc5 hr1 hr5 hr ih =>
        exact selectGrid_length_le _ cols rows conf ih
    | addToSpecificCell content title cellIndex hidx hr ih =>
        simp only [addToSpecificCell, setCellAt_length]
        omega
    | removeCellContent cellIndex hidx hr ih =>
        simp only [removeCellContent, setCellAt_length]
        omega
    | cycleFillMode cellIndex hr ih =>
        rename_i s1
        have h := cycleFillMode_cells_length s1 cellIndex
        rw [h.1, h.2]
        exact ih
    | setCellTransform cellIndex t hr ih =>
        rename_i s1
        have h := setCellTransform_cells_length s1 cellIndex t
        rw [h.1, h.2]
        exact ih
    | selectSize paperSize orientation hr ih =>
        exact ih
  · intro s cols rows
    have hguard : ¬ (rows * cols < s.grid.rows * s.grid.cols ∧
        hasDataInRemovedCells s.cells (rows * cols) = true ∧ true = false) := by
      rintro ⟨-, -, hfalse⟩
      exact absurd hfalse (by decide)
    constructor
    · simp only [selectGrid]
      rw [if_neg hguard]
    · simp only [selectGrid]
      rw [if_neg hguard]
      simp only
      split
      · next hlen =>
          rw [min_eq_left (le_of_lt hlen)]
      · next hlen =>
          rw [min_eq_right (by omega), List.take_length]

/-- Witness for the amended C7 at the initial state and a 3 x 2 reshape. -/
theorem cells_length_le_grid_witness :
    initState.cells.length ≤ initState.grid.rows * initState.grid.cols
    ∧ (selectGrid initState 3 2 true).grid = { cols := 3, rows := 2 }
    ∧ (selectGrid initState 3 2 true).cells
        = initState.cells.take (min (2 * 3) initState.cells.length) :=
  ⟨cells_length_le_grid.1 initState Reachable.init,
   (cells_length_le_grid.2 initState 3 2).1,
   (cells_length_le_grid.2 initState 3 2).2⟩

/-- Claim C9: whatever the attached image, the title, the target index and
the previous state, `addToSpecificCell` stores a record whose fill mode is
contain and whose transform is the identity (scale 1, zero translation). -/
theorem addToSpecificCell_stores_contain_identity (s : LayoutState) (content : ImageRef)
    (title : String) (cellIndex : ℕ) :
    getCellAt (addToSpecificCell s content title cellIndex).cells cellIndex
      = Option.some { image := content, title := title,
                      fillMode := FillMode.contain, transform := identityTransform } :=
  getCellAt_setCellAt_self _ _ _

/-- Claim C10: cycling the fill mode of a cell index holding no content
record (a hole, an out-of-range index or an explicit null) returns the
layout state completely unchanged. -/
theorem cycleFillMode_empty_is_noop (s : LayoutState) (cellIndex : ℕ)
    (h : getCellAt s.cells cellIndex = Option.none) :
    cycleFillMode s cellIndex = s := by
  unfold cycleFillMode
  rw [h]

/-- Witness for C10: cycling cell 0 of the initial state (empty cells
array) is a no-op. -/
theorem cycleFillMode_empty_is_noop_witness :
    cycleFillMode initState 0 = initState :=
  cycleFillMode_empty_is_noop initState 0 rfl

/-- Claim C8: export failure policy.  When the collaborator works (library
present, save succeeds) the export succeeds and processes every cell: a
populated cell whose image resolution fails contributes nothing (it is
skipped), while every populated cell whose resolution succeeds contributes
its draw call to the output, regardless of failures in other cells.  When
the collaborator itself fails (missing library or failing save) the whole
export aborts with an error surfaced to the caller. -/
theorem exportToPDF_failure_policy (env : ExportEnv) (spacing : GridSpacing)
    (sheetWidth sheetHeight : ℚ) (rows cols : ℕ) (cells : List (Option ExportCell)) :
    (env.jspdfAvailable = true → env.saveOk = true →
      (exportToPDF env spacing sheetWidth sheetHeight rows cols cells
        = Except.ok (exportDraws env spacing sheetWidth sheetHeight rows cols cells))
      ∧ (∀ (i : ℕ) (cellData : ExportCell) (dims : ℚ × ℚ),
          i < cells.length →
          cells.getD i Option.none = Option.some cellData →
          env.resolveImage i cellData = Option.some dims →
          exportCellDraw spacing sheetWidth sheetHeight rows cols i cellData dims
            ∈ exportDraws env spacing sheetWidth sheetHeight rows cols cells)
      ∧ (∀ (i : ℕ) (cellData : ExportCell),
          cells.getD i Option.none = Option.some cellData →
          env.resolveImage i cellData = Option.none →
          ∀ d ∈ exportDraws env spacing sheetWidth sheetHeight rows cols cells,
            d.cellIndex ≠ i))
    ∧ ((env.jspdfAvailable = false ∨ env.saveOk = false) →
        ∃ e, exportToPDF env spacing sheetWidth sheetHeight rows cols cells
          = Except.error e) := by
  constructor
  · intro hlib hsave
    refine ⟨?_, ?_, ?_⟩
    · simp [exportToPDF, hlib, hsave]
    · intro i cellData dims hi hcell hres
      unfold exportDraws
      rw [List.mem_filterMap]
      refine ⟨i, List.mem_range.mpr hi, ?_⟩
      simp only [hcell, hres]
    · intro i cellData hcell hres d hd hidx
      unfold exportDraws at hd
      rw [List.mem_filterMap] at hd
      obtain ⟨j, hj, hfd⟩ := hd
      have hji : j = i := by
        cases hcj : cells.getD j Option.none with
        | none =>
            simp only [hcj] at hfd
            exact Option.noConfusion hfd
        | some cd =>
            simp only [hcj] at hfd
            cases hrj : env.resolveImage j cd with
            | none =>
                simp only [hrj] at hfd
                exact Option.noConfusion hfd
            | some dims2 =>
                simp only [hrj] at hfd
                have hcompare := congrArg DrawCall.cellIndex (Option.some.inj hfd)
                simpa [exportCellDraw] using hcompare.trans hidx
      subst hji
      simp only [hcell, hres] at hfd
      exact Option.noConfusion hfd
  · intro h
    rcases h with h | h
    · exact ⟨ExportError.libNotLoaded, by simp [exportToPDF, h]⟩
    · by_cases hl : env.jspdfAvailable = false
      · exact ⟨ExportError.libNotLoaded, by simp [exportToPDF, hl]⟩
      · exact ⟨ExportError.saveFailed, by simp [exportToPDF, hl, h]⟩

/-- Witness for C8: a working collaborator with a one-cell layout whose
image resolution fails still succeeds (skip and continue), and a missing
library aborts with an error. -/
theorem exportToPDF_failure_policy_witness :
    (exportToPDF
        { jspdfAvailable := true, resolveImage := fun _ _ => Option.none, saveOk := true }
        gridSpacing 210 297 2 1 [Option.some { objectFit := ObjectFit.contain }]
      = Except.ok (exportDraws
        { jspdfAvailable := true, resolveImage := fun _ _ => Option.none, saveOk := true }
        gridSpacing 210 297 2 1 [Option.some { objectFit := ObjectFit.contain }]))
    ∧ ∃ e, exportToPDF
        { jspdfAvailable := false, resolveImage := fun _ _ => Option.none, saveOk := true }
        gridSpacing 210 297 2 1 [Option.some { objectFit := ObjectFit.contain }]
      = Except.error e :=
  ⟨((exportToPDF_failure_policy
      { jspdfAvailable := true, resolveImage := fun _ _ => Option.none, saveOk := true }
      gridSpacing 210 297 2 1 [Option.some { objectFit := ObjectFit.contain }]).1 rfl rfl).1,
   (exportToPDF_failure_policy
      { jspdfAvailable := false, resolveImage := fun _ _ => Option.none, saveOk := true }
      gridSpacing 210 297 2 1 [Option.some { objectFit := ObjectFit.contain }]).2 (Or.inl rfl)⟩

end PDFomator
